import Mathlib

/-!
Shallow embedding of `src/parser.py`: a fused lexer + recursive-descent
evaluator for a small expression language over floating-point numbers.

Modelling conventions:
* Python floats are modelled as rationals (`ℚ`).  Every literal and every
  arithmetic result appearing in the claims is exactly representable, so no
  rounding is modelled.  The one genuinely irrational case (a positive base
  raised to a non-integer exponent via `math.pow`) is out of ℚ's reach and is
  modelled by an explicitly documented placeholder; no claim touches it.
* Python exceptions are modelled as `Except String`, the message naming the
  exception: the parser's own `Exception('Invalid syntax')` and
  `Exception('Division by zero')`, the lexer's `Exception('Invalid character')`
  (line/column data dropped), Python's `ZeroDivisionError('float modulo')`
  raised by `%` with a zero divisor, and `ValueError('math domain error')`
  raised by `math.pow` on a domain violation.
* The lexer is on-demand exactly as in the source: the parser holds a
  one-token lookahead and pulls the next token only when it eats one, so
  characters beyond the lookahead are never examined.
* The mutually recursive parser takes a fuel argument for termination; fuel
  exhaustion yields a distinguished error that no theorem relies on, and
  `evaluate` supplies fuel ample for its input length.
-/

namespace ExprLang

/-- Token kinds, mirroring the `TokenType` enum of the source (including the
bitwise and `NOT` kinds that no grammar production consumes). -/
inductive TokenType where
  | IF | THEN | ELSE
  | PLUS | MINUS | MULTIPLY | DIVIDE | EXPONENTIATION | MODULUS
  | BITWISE_AND | BITWISE_OR
  | AND | OR | NOT
  | EQUAL | NOT_EQUAL | LESS | GREATER | LESS_EQUAL | GREATER_EQUAL
  | NUMBER | LPAREN | RPAREN | EOF
deriving DecidableEq, Repr

/-- A lexical token: its kind and, for `NUMBER` tokens, its numeric value
(the source stores strings for the other kinds and line/column positions;
the evaluator reads only the kind and the numeric value, so only those are
modelled). -/
structure Token where
  type : TokenType
  value : ℚ := 0
deriving DecidableEq, Repr

/-- Runtime values: the source returns Python floats or booleans. -/
inductive Val where
  | num (q : ℚ)
  | bool (b : Bool)
deriving DecidableEq, Repr

/-- Numeric view of a value: Python's `bool` is an `int` subclass, so `True`
compares as `1` and `False` as `0` in `==`, `<`, etc. -/
def Val.toRat : Val → ℚ
  | .num q => q
  | .bool b => if b then 1 else 0

/-- Python truthiness of a value: `0.0` and `False` are falsy. -/
def Val.truthy : Val → Bool
  | .num q => decide (q ≠ 0)
  | .bool b => b

/-- Executable addition on ℚ.  The Batteries `Rat.add` behind `+` is marked
irreducible, which blocks proof-by-evaluation; this wrapper computes the
same rational through `mkRat` and is proved equal to `+` in `qadd_eq`. -/
def qadd (a b : ℚ) : ℚ := mkRat (a.num * b.den + b.num * a.den) (a.den * b.den)

/-- Executable multiplication on ℚ, proved equal to `*` in `qmul_eq`. -/
def qmul (a b : ℚ) : ℚ := mkRat (a.num * b.num) (a.den * b.den)

/-- Executable subtraction on ℚ, proved equal to `-` in `qsub_eq`. -/
def qsub (a b : ℚ) : ℚ := qadd a (-b)

/-- Executable inverse on ℚ (with `qinv 0 = 0`), proved equal to `⁻¹` in
`qinv_eq`. -/
def qinv (a : ℚ) : ℚ :=
  if a.num < 0 then mkRat (-(a.den : ℤ)) a.num.natAbs
  else mkRat (a.den : ℤ) a.num.natAbs

/-- Executable division on ℚ, proved equal to `/` in `qdiv_eq`. -/
def qdiv (a b : ℚ) : ℚ := qmul a (qinv b)

theorem qadd_eq (a b : ℚ) : qadd a b = a + b := by
  have ha : (a.den : ℚ) ≠ 0 := Nat.cast_ne_zero.mpr a.den_nz
  have hb : (b.den : ℚ) ≠ 0 := Nat.cast_ne_zero.mpr b.den_nz
  rw [qadd, Rat.mkRat_eq_divInt, Rat.divInt_eq_div]
  conv_rhs => rw [← Rat.num_div_den a, ← Rat.num_div_den b]
  push_cast
  field_simp

theorem qmul_eq (a b : ℚ) : qmul a b = a * b := by
  have ha : (a.den : ℚ) ≠ 0 := Nat.cast_ne_zero.mpr a.den_nz
  have hb : (b.den : ℚ) ≠ 0 := Nat.cast_ne_zero.mpr b.den_nz
  rw [qmul, Rat.mkRat_eq_divInt, Rat.divInt_eq_div]
  conv_rhs => rw [← Rat.num_div_den a, ← Rat.num_div_den b]
  push_cast
  field_simp

theorem qsub_eq (a b : ℚ) : qsub a b = a - b := by
  rw [qsub, qadd_eq, sub_eq_add_neg]

theorem qinv_eq (a : ℚ) : qinv a = a⁻¹ := by
  rcases lt_trichotomy a.num 0 with h | h | h
  · rw [qinv, if_pos h, Rat.mkRat_eq_divInt, Rat.divInt_eq_div]
    conv_rhs => rw [← Rat.num_div_den a]
    rw [inv_div]
    have habs : ((a.num.natAbs : ℤ) : ℚ) = -(a.num : ℚ) := by
      rw [Int.ofNat_natAbs_of_nonpos h.le]
      push_cast
      ring
    rw [habs]
    push_cast
    rw [neg_div_neg_eq]
  · obtain rfl := Rat.num_eq_zero.mp h
    simp [qinv]
  · rw [qinv, if_neg (by omega), Rat.mkRat_eq_divInt, Rat.divInt_eq_div]
    conv_rhs => rw [← Rat.num_div_den a]
    rw [inv_div]
    have habs : ((a.num.natAbs : ℤ) : ℚ) = (a.num : ℚ) := by
      rw [Int.natAbs_of_nonneg h.le]
    rw [habs]
    norm_cast

theorem qdiv_eq (a b : ℚ) : qdiv a b = a / b := by
  rw [qdiv, qmul_eq, qinv_eq, div_eq_mul_inv]

/-- Digit string to natural number, as `float(...)` would read the integer
part or the fractional digits. -/
def natOfDigits (l : List Char) : ℕ :=
  l.foldl (fun a c => 10 * a + (c.toNat - 48)) 0

/-- Value of a decimal literal (digits with at most one `'.'`), the exact
rational that Python's `float(result)` rounds to a double; every literal in
the claims is exactly representable. -/
def qpowNat (x : ℚ) : ℕ → ℚ
  | 0 => 1
  | n + 1 => qmul x (qpowNat x n)

/-- Integer power on ℚ, written out structurally so that concrete powers
reduce inside the kernel. -/
def qzpow (x : ℚ) : ℤ → ℚ
  | .ofNat m => qpowNat x m
  | .negSucc m => qinv (qpowNat x (m + 1))

theorem qpowNat_eq_pow (x : ℚ) (n : ℕ) : qpowNat x n = x ^ n := by
  induction n with
  | zero => simp [qpowNat]
  | succ n ih => rw [qpowNat, qmul_eq, ih, pow_succ]; ring

theorem qzpow_eq_zpow (x : ℚ) (n : ℤ) : qzpow x n = x ^ n := by
  cases n with
  | ofNat m => rw [qzpow, qpowNat_eq_pow]; simp
  | negSucc m => rw [qzpow, qinv_eq, qpowNat_eq_pow]; simp [zpow_negSucc]

def decToRat (l : List Char) : ℚ :=
  let ip := l.takeWhile (· ≠ '.')
  match l.dropWhile (· ≠ '.') with
  | [] => (natOfDigits ip : ℚ)
  | _ :: fp => qadd (natOfDigits ip : ℚ) (qdiv (natOfDigits fp : ℚ) (qpowNat 10 fp.length))

/-- Lexer `number()`: consume digits and dots, reject a second decimal point,
normalise a leading or trailing dot as the source does. -/
def numberToken (l : List Char) : Except String (Token × List Char) :=
  let ds := l.takeWhile (fun c => c.isDigit || c = '.')
  let rest := l.dropWhile (fun c => c.isDigit || c = '.')
  if 1 < (ds.filter (· = '.')).length then
    .error "Invalid character"
  else
    let ds := if ds.head? = some '.' then '0' :: ds else ds
    let ds := if ds.getLast? = some '.' then ds ++ ['0'] else ds
    .ok (⟨.NUMBER, decToRat ds⟩, rest)

/-- The fixed keyword table of the lexer. -/
def keywordType (s : String) : Option TokenType :=
  if s = "IF" then some .IF
  else if s = "THEN" then some .THEN
  else if s = "ELSE" then some .ELSE
  else if s = "AND" then some .AND
  else if s = "OR" then some .OR
  else if s = "NOT" then some .NOT
  else none

/-- Lexer `_id()`: consume an alphanumeric/underscore run, uppercase it and
look it up among the keywords; any other identifier is a lexical error. -/
def idToken (l : List Char) : Except String (Token × List Char) :=
  let w := l.takeWhile (fun c => c.isAlphanum || c = '_')
  let rest := l.dropWhile (fun c => c.isAlphanum || c = '_')
  match keywordType (String.mk (w.map Char.toUpper)) with
  | some t => .ok (⟨t, 0⟩, rest)
  | none => .error "Invalid character"

mutual

/-- The whitespace/comment skipping loop at the head of `get_next_token`. -/
def skipWS : List Char → List Char
  | [] => []
  | c :: cs =>
    if c.isWhitespace then skipWS cs
    else if c = '#' then skipComment cs
    else c :: cs

/-- Lexer `skip_comment()`: drop characters up to and including the next
newline, then resume the whitespace/comment loop. -/
def skipComment : List Char → List Char
  | [] => []
  | c :: cs => if c = '\n' then skipWS cs else skipComment cs

end

/-- Lexer `get_next_token()`: skip whitespace and comments, then produce one
token from the head of the remaining characters, returning it with the
unconsumed rest; at end of input, the `EOF` token. -/
def get_next_token (l : List Char) : Except String (Token × List Char) :=
  match skipWS l with
  | [] => .ok (⟨.EOF, 0⟩, [])
  | c :: cs =>
    if c.isDigit || c = '.' then numberToken (c :: cs)
    else if c.isAlpha then idToken (c :: cs)
    else if c = '+' then .ok (⟨.PLUS, 0⟩, cs)
    else if c = '-' then .ok (⟨.MINUS, 0⟩, cs)
    else if c = '*' then .ok (⟨.MULTIPLY, 0⟩, cs)
    else if c = '/' then .ok (⟨.DIVIDE, 0⟩, cs)
    else if c = '^' then .ok (⟨.EXPONENTIATION, 0⟩, cs)
    else if c = '%' then .ok (⟨.MODULUS, 0⟩, cs)
    else if c = '&' then .ok (⟨.BITWISE_AND, 0⟩, cs)
    else if c = '|' then .ok (⟨.BITWISE_OR, 0⟩, cs)
    else if c = '(' then .ok (⟨.LPAREN, 0⟩, cs)
    else if c = ')' then .ok (⟨.RPAREN, 0⟩, cs)
    else if c = '=' then
      (match cs with
       | '=' :: cs2 => .ok (⟨.EQUAL, 0⟩, cs2)
       | _ => .error "Invalid character")
    else if c = '!' then
      (match cs with
       | '=' :: cs2 => .ok (⟨.NOT_EQUAL, 0⟩, cs2)
       | _ => .error "Invalid character")
    else if c = '<' then
      (match cs with
       | '=' :: cs2 => .ok (⟨.LESS_EQUAL, 0⟩, cs2)
       | _ => .ok (⟨.LESS, 0⟩, cs))
    else if c = '>' then
      (match cs with
       | '=' :: cs2 => .ok (⟨.GREATER_EQUAL, 0⟩, cs2)
       | _ => .ok (⟨.GREATER, 0⟩, cs))
    else .error "Invalid character"

/-- Placeholder for `math.pow` on a positive base with a non-integer
exponent: the true value is a positive real, irrational in general and not
representable in ℚ.  No claim depends on this branch, so it is modelled
opaquely; every exponentiation a claim evaluates has an integer exponent or
a domain error. -/
def powPosFrac (_x _y : ℚ) : ℚ := 0

/-- Model of Python's `math.pow` on the rational embedding of floats.  An
integer exponent gives the exact power; `math.pow` raises
`ValueError('math domain error')` for a negative base with a non-integer
exponent and for a zero base with a negative exponent.  (Overflow to
`OverflowError` cannot occur in the exact rational model.) -/
def mypow (x y : ℚ) : Except String ℚ :=
  if y.den = 1 then
    if x = 0 ∧ y.num < 0 then .error "math domain error"
    else .ok (qzpow x y.num)
  else if x < 0 then .error "math domain error"
  else if x = 0 then
    if y < 0 then .error "math domain error" else .ok 0
  else .ok (powPosFrac x y)

/-- Model of Python's float `%`: a zero divisor raises
`ZeroDivisionError('float modulo')`; otherwise the result is
`x - y * floor(x / y)` (sign follows the divisor), exact on rationals. -/
def pymod (x y : ℚ) : Except String ℚ :=
  if y = 0 then .error "float modulo"
  else .ok (qsub x (qmul y (((qdiv x y).floor : ℤ) : ℚ)))

/-- The modulus model agrees with the textbook formula `x - y * ⌊x / y⌋`. -/
theorem pymod_eq (x y : ℚ) (h : y ≠ 0) :
    pymod x y = .ok (x - y * ⌊x / y⌋) := by
  rw [pymod, if_neg h, qsub_eq, qmul_eq, qdiv_eq]
  rfl

/-- Parser state: the one-token lookahead (`current_token`) plus the
characters the lexer has not yet consumed. -/
structure PSt where
  cur : Token
  rest : List Char
deriving DecidableEq, Repr

/-- `Parser.eat`: if the lookahead has the expected kind, pull the next token
from the lexer; otherwise `Exception('Invalid syntax')`. -/
def eat (t : TokenType) (st : PSt) : Except String PSt :=
  if st.cur.type = t then
    match get_next_token st.rest with
    | .ok (tk, r) => .ok ⟨tk, r⟩
    | .error e => .error e
  else .error "Invalid syntax"

mutual

/-- `Parser.atom`: a NUMBER token's value, or a parenthesised `expression`. -/
def atom : ℕ → PSt → Except String (ℚ × PSt)
  | 0, _ => .error "out of fuel"
  | n + 1, st =>
    if st.cur.type = .NUMBER then
      match eat .NUMBER st with
      | .ok st1 => .ok (st.cur.value, st1)
      | .error e => .error e
    else if st.cur.type = .LPAREN then
      match eat .LPAREN st with
      | .ok st1 =>
        match expression n st1 with
        | .ok (v, st2) =>
          (match eat .RPAREN st2 with
           | .ok st3 => .ok (v, st3)
           | .error e => .error e)
        | .error e => .error e
      | .error e => .error e
    else .error "Invalid syntax"

/-- `Parser.factor`: unary `+`/`-` recursing into `factor`, else
`exponentiation`. -/
def factor : ℕ → PSt → Except String (ℚ × PSt)
  | 0, _ => .error "out of fuel"
  | n + 1, st =>
    if st.cur.type = .PLUS then
      match eat .PLUS st with
      | .ok st1 => factor n st1
      | .error e => .error e
    else if st.cur.type = .MINUS then
      match eat .MINUS st with
      | .ok st1 =>
        (match factor n st1 with
         | .ok (v, st2) => .ok (-v, st2)
         | .error e => .error e)
      | .error e => .error e
    else exponentiation n st

/-- `Parser.exponentiation`: an `atom` followed by the `^` loop. -/
def exponentiation : ℕ → PSt → Except String (ℚ × PSt)
  | 0, _ => .error "out of fuel"
  | n + 1, st =>
    match atom n st with
    | .ok (v, st1) => expLoop n v st1
    | .error e => .error e

/-- The `while` loop of `Parser.exponentiation`: while the lookahead is `^`,
eat it, evaluate the exponent via `factor` (not `exponentiation`, hence
right-associativity), and combine with `math.pow`. -/
def expLoop : ℕ → ℚ → PSt → Except String (ℚ × PSt)
  | 0, _, _ => .error "out of fuel"
  | n + 1, r, st =>
    if st.cur.type = .EXPONENTIATION then
      match eat .EXPONENTIATION st with
      | .ok st1 =>
        (match factor n st1 with
         | .ok (e, st2) =>
           (match mypow r e with
            | .ok v => expLoop n v st2
            | .error msg => .error msg)
         | .error e => .error e)
      | .error e => .error e
    else .ok (r, st)

/-- `Parser.term`: a `factor` followed by the `*` / `/` / `%` loop. -/
def term : ℕ → PSt → Except String (ℚ × PSt)
  | 0, _ => .error "out of fuel"
  | n + 1, st =>
    match factor n st with
    | .ok (v, st1) => termLoop n v st1
    | .error e => .error e

/-- The `while` loop of `Parser.term`.  Division checks the divisor against
zero after parsing it and before dividing (`Exception('Division by zero')`);
modulus is not zero-checked and follows Python float `%` semantics. -/
def termLoop : ℕ → ℚ → PSt → Except String (ℚ × PSt)
  | 0, _, _ => .error "out of fuel"
  | n + 1, r, st =>
    if st.cur.type = .MULTIPLY then
      match eat .MULTIPLY st with
      | .ok st1 =>
        (match factor n st1 with
         | .ok (v, st2) => termLoop n (qmul r v) st2
         | .error e => .error e)
      | .error e => .error e
    else if st.cur.type = .DIVIDE then
      match eat .DIVIDE st with
      | .ok st1 =>
        (match factor n st1 with
         | .ok (d, st2) =>
           if d = 0 then .error "Division by zero"
           else termLoop n (qdiv r d) st2
         | .error e => .error e)
      | .error e => .error e
    else if st.cur.type = .MODULUS then
      match eat .MODULUS st with
      | .ok st1 =>
        (match factor n st1 with
         | .ok (v, st2) =>
           (match pymod r v with
            | .ok m => termLoop n m st2
            | .error msg => .error msg)
         | .error e => .error e)
      | .error e => .error e
    else .ok (r, st)

/-- `Parser.expression`: a `term` followed by the `+` / `-` loop. -/
def expression : ℕ → PSt → Except String (ℚ × PSt)
  | 0, _ => .error "out of fuel"
  | n + 1, st =>
    match term n st with
    | .ok (v, st1) => exprLoop n v st1
    | .error e => .error e

/-- The `while` loop of `Parser.expression`. -/
def exprLoop : ℕ → ℚ → PSt → Except String (ℚ × PSt)
  | 0, _, _ => .error "out of fuel"
  | n + 1, r, st =>
    if st.cur.type = .PLUS then
      match eat .PLUS st with
      | .ok st1 =>
        (match term n st1 with
         | .ok (v, st2) => exprLoop n (qadd r v) st2
         | .error e => .error e)
      | .error e => .error e
    else if st.cur.type = .MINUS then
      match eat .MINUS st with
      | .ok st1 =>
        (match term n st1 with
         | .ok (v, st2) => exprLoop n (qsub r v) st2
         | .error e => .error e)
      | .error e => .error e
    else .ok (r, st)

/-- `Parser.comparison`: an `expression` (a number) followed by the
comparison loop; without any comparison operator the numeric value is
returned unchanged. -/
def comparison : ℕ → PSt → Except String (Val × PSt)
  | 0, _ => .error "out of fuel"
  | n + 1, st =>
    match expression n st with
    | .ok (v, st1) => compLoop n (.num v) st1
    | .error e => .error e

/-- The `while` loop of `Parser.comparison`: the running result (possibly a
boolean from an earlier step) is compared against the next `expression`
value with Python's mixed bool/float comparison, i.e. numerically via
`Val.toRat`. -/
def compLoop : ℕ → Val → PSt → Except String (Val × PSt)
  | 0, _, _ => .error "out of fuel"
  | n + 1, r, st =>
    if st.cur.type = .EQUAL then
      match eat .EQUAL st with
      | .ok st1 =>
        (match expression n st1 with
         | .ok (v, st2) => compLoop n (.bool (decide (r.toRat = v))) st2
         | .error e => .error e)
      | .error e => .error e
    else if st.cur.type = .NOT_EQUAL then
      match eat .NOT_EQUAL st with
      | .ok st1 =>
        (match expression n st1 with
         | .ok (v, st2) => compLoop n (.bool (decide (r.toRat ≠ v))) st2
         | .error e => .error e)
      | .error e => .error e
    else if st.cur.type = .LESS then
      match eat .LESS st with
      | .ok st1 =>
        (match expression n st1 with
         | .ok (v, st2) => compLoop n (.bool (decide (r.toRat < v))) st2
         | .error e => .error e)
      | .error e => .error e
    else if st.cur.type = .GREATER then
      match eat .GREATER st with
      | .ok st1 =>
        (match expression n st1 with
         | .ok (v, st2) => compLoop n (.bool (decide (v < r.toRat))) st2
         | .error e => .error e)
      | .error e => .error e
    else if st.cur.type = .LESS_EQUAL then
      match eat .LESS_EQUAL st with
      | .ok st1 =>
        (match expression n st1 with
         | .ok (v, st2) => compLoop n (.bool (decide (r.toRat ≤ v))) st2
         | .error e => .error e)
      | .error e => .error e
    else if st.cur.type = .GREATER_EQUAL then
      match eat .GREATER_EQUAL st with
      | .ok st1 =>
        (match expression n st1 with
         | .ok (v, st2) => compLoop n (.bool (decide (v ≤ r.toRat))) st2
         | .error e => .error e)
      | .error e => .error e
    else .ok (r, st)

/-- `Parser.logical_expr`: a `comparison` followed by the `AND` / `OR` loop. -/
def logical_expr : ℕ → PSt → Except String (Val × PSt)
  | 0, _ => .error "out of fuel"
  | n + 1, st =>
    match comparison n st with
    | .ok (v, st1) => logLoop n v st1
    | .error e => .error e

/-- The `while` loop of `Parser.logical_expr`, translating
`result = result and self.comparison()` (resp. `or`) literally: Python's
`and` short-circuits, so when the running result is falsy the right-hand
`comparison()` call is not made at all — its tokens are not consumed — and
the running result is kept; when it is truthy the right comparison is
parsed and its value replaces the result.  `or` is symmetric. -/
def logLoop : ℕ → Val → PSt → Except String (Val × PSt)
  | 0, _, _ => .error "out of fuel"
  | n + 1, r, st =>
    if st.cur.type = .AND then
      match eat .AND st with
      | .ok st1 =>
        if r.truthy then
          match comparison n st1 with
          | .ok (v, st2) => logLoop n v st2
          | .error e => .error e
        else logLoop n r st1
      | .error e => .error e
    else if st.cur.type = .OR then
      match eat .OR st with
      | .ok st1 =>
        if r.truthy then logLoop n r st1
        else
          match comparison n st1 with
          | .ok (v, st2) => logLoop n v st2
          | .error e => .error e
      | .error e => .error e
    else .ok (r, st)

/-- `Parser.if_expr`: eats `IF`, evaluates the condition, eats `THEN`,
evaluates the true-branch `expression`, eats `ELSE`, evaluates the
false-branch `expression` — both branches unconditionally — and returns the
branch selected by the condition's truthiness. -/
def if_expr : ℕ → PSt → Except String (ℚ × PSt)
  | 0, _ => .error "out of fuel"
  | n + 1, st =>
    match eat .IF st with
    | .ok st1 =>
      (match logical_expr n st1 with
       | .ok (c, st2) =>
         (match eat .THEN st2 with
          | .ok st3 =>
            (match expression n st3 with
             | .ok (tv, st4) =>
               (match eat .ELSE st4 with
                | .ok st5 =>
                  (match expression n st5 with
                   | .ok (fv, st6) => .ok (if c.truthy then tv else fv, st6)
                   | .error e => .error e)
                | .error e => .error e)
             | .error e => .error e)
          | .error e => .error e)
       | .error e => .error e)
    | .error e => .error e

end

/-- `Parser.parse`: dispatch on the lookahead — `if_expr` when it is `IF`,
otherwise `logical_expr`.  No check that the end-of-input token has been
reached is performed afterwards. -/
def parse : ℕ → PSt → Except String (Val × PSt)
  | 0, _ => .error "out of fuel"
  | n + 1, st =>
    if st.cur.type = .IF then
      match if_expr n st with
      | .ok (q, st1) => .ok (.num q, st1)
      | .error e => .error e
    else logical_expr n st

/-- `evaluate(text)`: build the lexer and parser (priming the one-token
lookahead) and run `parse`, returning its value.  The fuel is ample for the
input's length: every recursive descent either consumes a token or descends
a bounded number of levels per token. -/
def evaluate (s : String) : Except String Val :=
  match get_next_token s.toList with
  | .error e => .error e
  | .ok (t0, r) =>
    match parse (8 * (s.length + 2)) ⟨t0, r⟩ with
    | .ok (v, _) => .ok v
    | .error e => .error e

/-!  Claim theorems.  -/

/-- C1 (counterexample): for the complete input `5 & 3`, `evaluate` does not
fail with a syntax error — it succeeds with the value `5.0`, so the claim
that this input is a syntax error is false on the code. -/
theorem c1_counterexample : evaluate "5 & 3" = .ok (.num 5) := by rfl

/-- C1 (amended): for the complete input `5 & 3`, the bitwise token is lexed
but consumed by no grammar production and `parse` never checks for end of
input, so `evaluate` returns the leading expression's value `5.0`, silently
ignoring `& 3`; in particular it does not return a working bitwise result
(`5 & 3` would be `1`). -/
theorem c1_bitwise_dead_surface :
    evaluate "5 & 3" = .ok (.num 5) ∧ Val.num 5 ≠ Val.num 1 := by
  exact ⟨by rfl, by decide⟩

/-- C2: `parse` performs no end-of-input check on either of its branches:
whenever the branch it dispatches to — `logical_expr` on a non-`IF`
lookahead, `if_expr` on an `IF` lookahead — succeeds, `parse` returns
exactly that branch's value and final state, whatever unconsumed lookahead
token that state holds.  Concretely, the input `2 3` evaluates to `2.0`
with no error exactly as the input `2` does, the trailing `3` silently
ignored, and the IF-led input `IF 1 > 0 THEN 2 ELSE 3 4` evaluates to
`2.0`, the trailing `4` silently ignored. -/
theorem c2_parse_ignores_trailing_tokens :
    (∀ (n : ℕ) (st : PSt) (v : Val) (st' : PSt), st.cur.type ≠ .IF →
      logical_expr n st = .ok (v, st') → parse (n + 1) st = .ok (v, st')) ∧
    (∀ (n : ℕ) (st : PSt) (q : ℚ) (st' : PSt), st.cur.type = .IF →
      if_expr n st = .ok (q, st') → parse (n + 1) st = .ok (.num q, st')) ∧
    evaluate "2 3" = .ok (.num 2) ∧ evaluate "2" = .ok (.num 2) ∧
    evaluate "IF 1 > 0 THEN 2 ELSE 3 4" = .ok (.num 2) := by
  refine ⟨?_, ?_, by rfl, by rfl, by rfl⟩
  · intro n st v st' hne hlog
    simp only [parse, if_neg hne]
    exact hlog
  · intro n st q st' hif hexpr
    simp only [parse, if_pos hif, hexpr]

/-- C2 (witness): both universal statements instantiated.  On the input
`2 3` the leading program `2` parses to `2.0` leaving the `NUMBER 3` token
as the unconsumed lookahead, and `parse` succeeds with that value anyway;
on the input `IF 1 > 0 THEN 2 ELSE 3 4` the leading `if_expr` parses to
`2.0` leaving the `NUMBER 4` token as the unconsumed lookahead, and `parse`
again succeeds with that value. -/
theorem c2_witness :
    (logical_expr 40 ⟨⟨.NUMBER, 2⟩, " 3".toList⟩ = .ok (.num 2, ⟨⟨.NUMBER, 3⟩, []⟩) ∧
     parse 41 ⟨⟨.NUMBER, 2⟩, " 3".toList⟩ = .ok (.num 2, ⟨⟨.NUMBER, 3⟩, []⟩)) ∧
    ((⟨⟨.IF, 0⟩, " 1 > 0 THEN 2 ELSE 3 4".toList⟩ : PSt).cur.type = .IF ∧
     if_expr 80 ⟨⟨.IF, 0⟩, " 1 > 0 THEN 2 ELSE 3 4".toList⟩ = .ok (2, ⟨⟨.NUMBER, 4⟩, []⟩) ∧
     parse 81 ⟨⟨.IF, 0⟩, " 1 > 0 THEN 2 ELSE 3 4".toList⟩ = .ok (.num 2, ⟨⟨.NUMBER, 4⟩, []⟩)) :=
  ⟨⟨by rfl, c2_parse_ignores_trailing_tokens.1 40 ⟨⟨.NUMBER, 2⟩, " 3".toList⟩
      (.num 2) ⟨⟨.NUMBER, 3⟩, []⟩ (by decide) (by rfl)⟩,
   ⟨by rfl, by rfl, c2_parse_ignores_trailing_tokens.2.1 80
      ⟨⟨.IF, 0⟩, " 1 > 0 THEN 2 ELSE 3 4".toList⟩ 2 ⟨⟨.NUMBER, 4⟩, []⟩ (by rfl) (by rfl)⟩⟩

/-- C3 (code bug): when the running result before `AND` is falsy the code
does NOT parse the right operand — `result = result and self.comparison()`
short-circuits in Python before `self.comparison()` is called — so the
malformed right operand `(` of `1 > 2 AND (` is never consumed and
`evaluate` returns `False` instead of failing with a syntax error;
symmetrically `1 < 2 OR (` returns `True`.  This contradicts both the spec
and the source's own docstring grammar
`logical_expr ::= comparison { (AND | OR) comparison }`. -/
theorem c3_short_circuit_skips_parsing :
    evaluate "1 > 2 AND (" = .ok (.bool false) ∧
    evaluate "1 < 2 OR (" = .ok (.bool true) := by
  exact ⟨by rfl, by rfl⟩

/-- C4: evaluating `5 % 0` does not raise the parser's zero-checked
`Division by zero` runtime error: modulus is not zero-checked, and the
result is whatever the float modulus operation yields for a zero divisor —
in Python, the propagated `ZeroDivisionError('float modulo')`. -/
theorem c4_modulus_not_division_checked :
    evaluate "5 % 0" = .error "float modulo" ∧
    ("float modulo" : String) ≠ "Division by zero" := by
  exact ⟨by rfl, by decide⟩

/-- C5 (counterexample): for `(-2) ^ 0.5` the code does NOT return a
not-a-number result: `math.pow` raises `ValueError('math domain error')`,
so `evaluate` fails with that fatal error, refuting the claim that an
undefined base/exponent combination yields a NaN value instead of an
error. -/
theorem c5_counterexample : evaluate "(-2) ^ 0.5" = .error "math domain error" := by
  rfl

/-- C5 (amended): `exponentiation` itself enforces no domain restriction,
but the power function it calls does: for a negative base with a fractional
exponent the power function raises a math-domain error and `evaluate`
fails with it rather than returning a value. -/
theorem c5_negative_base_fractional_exponent :
    evaluate "(-2) ^ 0.5" = .error "math domain error" ∧
    mypow (-2) (mkRat 1 2) = .error "math domain error" := by
  exact ⟨by rfl, by rfl⟩

/-- C6: comparison chains left-associatively against the running result,
coercing a boolean to a number: `1 < 2` is `true`, and `1 < 2 < 3` then
compares `true` (numerically `1`) with `3`, so the whole input evaluates to
`true`. -/
theorem c6_comparison_chaining_quirk :
    evaluate "1 < 2 < 3" = .ok (.bool true) ∧
    evaluate "1 < 2" = .ok (.bool true) ∧
    (Val.bool true).toRat = 1 := by
  exact ⟨by rfl, by rfl, by rfl⟩

/-- C7: division by a zero right-hand operand is the fatal runtime error
`Division by zero`, checked before dividing: `5 / 0` fails with exactly
that error and returns no value. -/
theorem c7_division_by_zero : evaluate "5 / 0" = .error "Division by zero" := by
  rfl

/-- C8: `if_expr` evaluates the condition and then both branches
unconditionally, returning the branch the condition selects: the two
sample inputs return `1` and `0`, and a division-by-zero in the unselected
`ELSE` branch still aborts the whole evaluation even when the condition is
true. -/
theorem c8_if_eager_both_branches :
    evaluate "IF 5 > 3 THEN 1 ELSE 0" = .ok (.num 1) ∧
    evaluate "IF 2 > 3 THEN 1 ELSE 0" = .ok (.num 0) ∧
    evaluate "IF 5 > 3 THEN 1 ELSE 1/0" = .error "Division by zero" := by
  exact ⟨by rfl, by rfl, by rfl⟩

/-- C9: `^` is right-associative (its right operand recurses into `factor`)
and admits unary minus right after `^`: `2^3^2 = 2^(3^2) = 512`,
`5 + 2 ^ 3 ^ 2 - 1 = 516`, and `2^-1 = 0.5` (the value `mkRat 1 2`, proved
equal to `1/2`). -/
theorem c9_exponentiation_right_assoc :
    evaluate "2^3^2" = .ok (.num 512) ∧
    evaluate "5 + 2 ^ 3 ^ 2 - 1" = .ok (.num 516) ∧
    evaluate "2^-1" = .ok (.num (mkRat 1 2)) ∧
    (mkRat 1 2 : ℚ) = 1 / 2 := by
  refine ⟨by rfl, by rfl, by rfl, ?_⟩
  rw [Rat.mkRat_eq_divInt, Rat.divInt_eq_div]
  norm_num

/-- C10: unary minus binds looser than exponentiation (`factor` wraps
`exponentiation` for the base), so `-2^2` evaluates to `-(2^2) = -4`, not
`(-2)^2 = 4`. -/
theorem c10_unary_minus_binds_looser : evaluate "-2^2" = .ok (.num (-4)) := by
  rfl

end ExprLang
